import Mathlib

/-!
# Verification of the `spectre` repository core

This file gives a shallow embedding, in Lean 4, of the core of the
`spectre` Rust crate and proves the specified properties about it.

Two components are embedded:

* the LAMDA file parser (`src/lamda.rs`, together with the error type of
  `src/errors.rs` and the line primitive of `src/io.rs`).  The Rust input
  stream of `io::Result<String>` lines is modelled as a `List String`
  (in-memory inputs never produce I/O errors); `usize` parsing is modelled
  over `Nat` and `f64` token parsing over `ℚ` (the numeric *values* of
  floats play no role in any property here, only the success or failure of
  parsing a token, and for finite decimal/exponent tokens the rational
  value is the exact mathematical value the token denotes).  Rust `expect`
  calls (panics) are modelled by a dedicated `panicked` outcome, distinct
  from returning an error value.

* the beam model (`src/beam.rs` with the constants of
  `src/constants.rs`).  The `f64` arithmetic is modelled over the real
  numbers; `uom` angles carry their value in the base unit (radian), so an
  angle is a real number (its radian value) and the unit conversions of
  `.get::<degree>()` etc. are explicit multiplications.  `f64::EPSILON`
  is the exact rational `2 ^ (-52)`.
-/

set_option maxHeartbeats 1000000

/-! ## Tokenizer and scalar parsers (`split_whitespace`, `usize`/`f64` parsing) -/

/-- Model of Rust `line.starts_with('!')`: the line begins with the
comment character.  (Implemented structurally over the character list; the
byte-position loop of `String.startsWith` is equivalent here but blocks
kernel evaluation.) -/
def startsBang (s : String) : Bool :=
  match s.toList with
  | '!' :: _ => true
  | _ => false

/-- Accumulator pass for `splitWhitespace`: `cur` holds the reversed
characters of the token being read. -/
def splitWsAux : List Char → List Char → List String
  | [], cur => if cur = [] then [] else [String.mk cur.reverse]
  | c :: cs, cur =>
    if c.isWhitespace then
      if cur = [] then splitWsAux cs []
      else String.mk cur.reverse :: splitWsAux cs []
    else splitWsAux cs (c :: cur)

/-- Model of Rust `str::split_whitespace`: maximal whitespace-free tokens
in order, no empty tokens. -/
def splitWhitespace (s : String) : List String :=
  splitWsAux s.toList []

/-- Take the leading run of decimal digits from a character list. -/
def takeDigits : List Char → List Char × List Char
  | [] => ([], [])
  | c :: cs =>
    if c.isDigit then
      let (d, r) := takeDigits cs
      (c :: d, r)
    else ([], c :: cs)

/-- Numeric value of a list of decimal digit characters. -/
def digitsToNat (ds : List Char) : Nat :=
  ds.foldl (fun a c => 10 * a + (c.toNat - 48)) 0

/-- Model of Rust `str::parse::<usize>()`: an optional leading sign
(`+` accepted, `-` rejected for an unsigned type) followed by at least one
ASCII digit and nothing else. -/
def parseNat (s : String) : Option Nat :=
  let cs := match s.toList with
    | '+' :: r => r
    | r => r
  if cs ≠ [] ∧ cs.all (·.isDigit) then some (digitsToNat cs) else none

/-- Parse the exponent suffix of a Rust float literal: either empty, or
`e`/`E` followed by an optional sign and a nonempty digit string reaching
the end of the token. -/
def parseFloatExp : List Char → Option Int
  | [] => some 0
  | c :: cs =>
    if c = 'e' ∨ c = 'E' then
      let (neg, cs') := match cs with
        | '-' :: r => (true, r)
        | '+' :: r => (false, r)
        | r => (false, r)
      let (ds, rest) := takeDigits cs'
      if ds ≠ [] ∧ rest = [] then
        some (if neg then -(digitsToNat ds : Int) else (digitsToNat ds : Int))
      else none
    else none

/-- Model of Rust `str::parse::<f64>()` on the finite decimal forms:
optional sign, then either `digits [. digits?]` or `. digits`, then an
optional exponent.  (`inf` and `nan` tokens are not modelled; no LAMDA
property depends on them.)  The returned rational is the exact value the
token denotes. -/
def parseFloat (s : String) : Option ℚ :=
  let (neg, cs) := match s.toList with
    | '-' :: r => (true, r)
    | '+' :: r => (false, r)
    | r => (false, r)
  let (ip, cs') := takeDigits cs
  let contFrac : List Char → Option (Nat × Nat × List Char) := fun l =>
    match l with
    | '.' :: r =>
      let (fp, r') := takeDigits r
      if ip = [] ∧ fp = [] then none
      else some (digitsToNat ip * 10 ^ fp.length + digitsToNat fp, fp.length, r')
    | r =>
      if ip = [] then none else some (digitsToNat ip, 0, r)
  match contFrac cs' with
  | none => none
  | some (mantNat, flen, rest) =>
    match parseFloatExp rest with
    | none => none
    | some e =>
      let m : Int := if neg then -(mantNat : Int) else (mantNat : Int)
      some (if 0 ≤ e then mkRat (m * 10 ^ e.toNat) (10 ^ flen)
            else mkRat m (10 ^ flen * 10 ^ (-e).toNat))

/-! ## The LAMDA error type (`src/errors.rs`) and the panic-aware outcome -/

/-- Model of `LAMDAError` from `src/errors.rs`.  `ioError` wraps an
underlying I/O failure (never produced by the in-memory reader model),
`parseError` a structural message, `parseInt`/`parseFloat` scalar
conversion failures. -/
inductive LAMDAError where
  | ioError
  | parseError (msg : String)
  | parseInt
  | parseFloat
  deriving DecidableEq, Repr

/-- Outcome of running a piece of Rust code that can return normally,
return an error, or panic (via `expect`/`unwrap`). -/
inductive PRes (α : Type) where
  | ok (a : α)
  | err (e : LAMDAError)
  | panicked (msg : String)
  deriving DecidableEq, Repr

/-- Sequencing of panic-aware stateful parsing steps. -/
def pbind {α β : Type} (x : PRes α × List String)
    (f : α → List String → PRes β × List String) : PRes β × List String :=
  match x with
  | (.ok a, ls) => f a ls
  | (.err e, ls) => (.err e, ls)
  | (.panicked m, ls) => (.panicked m, ls)

/-- Model of `Iterator::next` on the line iterator. -/
def next1 : List String → Option String × List String
  | [] => (none, [])
  | l :: r => (some l, r)

/-- Model of `Iterator::nth(1)` on the line iterator: consume two lines,
return the second (or `none` if the iterator ends first). -/
def nth1 : List String → Option String × List String
  | a :: b :: r => (some b, r)
  | _ => (none, [])

/-! ## LAMDA data model (`src/lamda.rs`) -/

/-- Model of `LevelData`: column-wise energy-level data. -/
structure LevelData where
  ids : List Nat
  energies : List ℚ
  weights : List ℚ
  qnums : List Nat
  deriving DecidableEq, Repr

/-- Model of `RadSet`: column-wise radiative-transition data. -/
structure RadSet where
  ids : List Nat
  ups : List Nat
  lows : List Nat
  einst_as : List ℚ
  freqs : List ℚ
  energies : List ℚ
  deriving DecidableEq, Repr

/-- One collisional transition: ids plus the rate at each partner
temperature, stored as `(temperature, rate)` pairs zipped positionally. -/
structure ColliTransition where
  id : Nat
  up : Nat
  low : Nat
  rates : List (ℚ × ℚ)
  deriving DecidableEq, Repr

/-- Per-partner collisional data: the temperature grid and the transitions
read against it. -/
structure CollSet where
  temps : List ℚ
  transitions : List ColliTransition
  deriving DecidableEq, Repr

/-- Model of `LAMDAData`: the root aggregate produced by one parse. -/
structure LAMDAData where
  levels : LevelData
  radset : RadSet
  collsets : List (String × CollSet)
  deriving DecidableEq, Repr

/-! ## Section parsers -/

/-- One pull on the energy-level record iterator of
`parse_energy_levels`: skip comment lines starting with `!`, split the
first data line on whitespace and parse `id energy weight qnum`; every
missing or malformed field is an `expect` panic in the source, and an
exhausted iterator is the loop's `expect("Failed to parse level")`. -/
def levelNext : List String → PRes (Nat × ℚ × ℚ × Nat) × List String
  | [] => (.panicked "Failed to parse level", [])
  | l :: rest =>
    if startsBang l then levelNext rest
    else
      match splitWhitespace l with
      | [] => (.panicked "Failed to parse level ID", rest)
      | t0 :: ts =>
        match parseNat t0 with
        | none => (.panicked "Failed to parse level ID", rest)
        | some id =>
          match ts with
          | [] => (.panicked "Failed to parse level energy", rest)
          | t1 :: ts' =>
            match parseFloat t1 with
            | none => (.panicked "Failed to parse level energy", rest)
            | some energy =>
              match ts' with
              | [] => (.panicked "Failed to parse level statistical weight", rest)
              | t2 :: ts'' =>
                match parseFloat t2 with
                | none => (.panicked "Failed to parse level statistical weight", rest)
                | some weight =>
                  match ts'' with
                  | [] => (.panicked "Failed to parse level J", rest)
                  | t3 :: _ =>
                    match parseNat t3 with
                    | none => (.panicked "Failed to parse level J", rest)
                    | some qnum => (.ok (id, energy, weight, qnum), rest)

/-- Model of `LAMDAData::parse_energy_levels`: read exactly `count`
energy-level records (the source preallocates vectors of length `count`
and fills each slot from the record iterator). -/
def parse_energy_levels (lines : List String) : Nat → PRes LevelData × List String
  | 0 => (.ok ⟨[], [], [], []⟩, lines)
  | n + 1 =>
    pbind (levelNext lines) fun (i, e, w, q) rest =>
      pbind (parse_energy_levels rest n) fun d rest' =>
        (.ok ⟨i :: d.ids, e :: d.energies, w :: d.weights, q :: d.qnums⟩, rest')

/-- One pull on the radiative-transition record iterator of
`parse_rad_transitions`: `id upper lower einsteinA freq energy`, with the
source's `expect` messages. -/
def radNext : List String → PRes (Nat × Nat × Nat × ℚ × ℚ × ℚ) × List String
  | [] => (.panicked "Failed to parse transition", [])
  | l :: rest =>
    if startsBang l then radNext rest
    else
      match splitWhitespace l with
      | [] => (.panicked "Failed to parse level ID", rest)
      | t0 :: ts =>
        match parseNat t0 with
        | none => (.panicked "Failed to parse level ID", rest)
        | some id =>
          match ts with
          | [] => (.panicked "Failed to parse level energy", rest)
          | t1 :: ts' =>
            match parseNat t1 with
            | none => (.panicked "Failed to parse level energy", rest)
            | some up =>
              match ts' with
              | [] => (.panicked "Failed to parse level statistical weight", rest)
              | t2 :: ts'' =>
                match parseNat t2 with
                | none => (.panicked "Failed to parse level statistical weight", rest)
                | some low =>
                  match ts'' with
                  | [] => (.panicked "Failed to parse level J", rest)
                  | t3 :: ts3 =>
                    match parseFloat t3 with
                    | none => (.panicked "Failed to parse level J", rest)
                    | some einstA =>
                      match ts3 with
                      | [] => (.panicked "Failed to parse level J", rest)
                      | t4 :: ts4 =>
                        match parseFloat t4 with
                        | none => (.panicked "Failed to parse level J", rest)
                        | some freq =>
                          match ts4 with
                          | [] => (.panicked "Failed to parse level J", rest)
                          | t5 :: _ =>
                            match parseFloat t5 with
                            | none => (.panicked "Failed to parse energy", rest)
                            | some energy =>
                              (.ok (id, up, low, einstA, freq, energy), rest)

/-- Model of `LAMDAData::parse_rad_transitions`: read exactly `count`
radiative-transition records. -/
def parse_rad_transitions (lines : List String) : Nat → PRes RadSet × List String
  | 0 => (.ok ⟨[], [], [], [], [], []⟩, lines)
  | n + 1 =>
    pbind (radNext lines) fun (i, u, lo, a, f, e) rest =>
      pbind (parse_rad_transitions rest n) fun d rest' =>
        (.ok ⟨i :: d.ids, u :: d.ups, lo :: d.lows, a :: d.einst_as,
              f :: d.freqs, e :: d.energies⟩, rest')

/-- The fixed partner-id table of the collisional section (the `match` in
`from_reader`): tokens `1`..`7` map to partner names, anything else is the
fatal invalid-partner-id parse error. -/
def partnerNameOfId (s : String) : Except LAMDAError String :=
  if s = "1" then .ok "H2"
  else if s = "2" then .ok "p-H2"
  else if s = "3" then .ok "o-H2"
  else if s = "4" then .ok "e"
  else if s = "5" then .ok "H"
  else if s = "6" then .ok "He"
  else if s = "7" then .ok "H+"
  else .error (.parseError "Invalid partner transition ID")

/-- Parse every token of a list as a float, failing on the first malformed
one (the `collect::<Result<Vec<_>, _>>()` of the source). -/
def parseFloats : List String → Option (List ℚ)
  | [] => some []
  | t :: ts =>
    match parseFloat t, parseFloats ts with
    | some q, some qs => some (q :: qs)
    | _, _ => none

/-- Parse one whitespace-separated line of temperatures as floats (the
source maps a `ParseFloatError` to `ParseError` with the error's display
string, which is `invalid float literal`). -/
def parseTempsLine (l : String) : Except LAMDAError (List ℚ) :=
  match parseFloats (splitWhitespace l) with
  | none => .error (.parseError "invalid float literal")
  | some qs => .ok qs

/-- The per-partner header steps shared by the two collisional loops of the
source: skip to the partner-id line, map the first token through the
partner table, read the collisional-transition count, read (and discard)
the temperature-count line, read the temperature line, and skip one more
line. -/
def colliPartnerHeader (lines : List String) :
    PRes (String × Nat × List ℚ) × List String :=
  pbind (match nth1 lines with
    | (none, r) => (.err (.parseError "Missing partner transition header"), r)
    | (some l, r) => (.ok l, r)) fun partnerInfo rest =>
  pbind (match (splitWhitespace partnerInfo).head? with
    | none => (.err (.parseError "Missing partner transition ID"), rest)
    | some t => (.ok t, rest)) fun idTok rest₁ =>
  pbind (match partnerNameOfId idTok with
    | .error e => (.err e, rest₁)
    | .ok name => (.ok name, rest₁)) fun name rest₂ =>
  pbind (match nth1 rest₂ with
    | (none, r) => (.err (.parseError "Missing collisional transition count"), r)
    | (some l, r) =>
      match parseNat l with
      | none => (.err .parseInt, r)
      | some n => (.ok n, r)) fun count rest₃ =>
  pbind (match nth1 rest₃ with
    | (none, r) => (.err (.parseError "Missing collisional transition header"), r)
    | (some l, r) =>
      match parseNat l with
      | none => (.err .parseInt, r)
      | some _ => (.ok (), r)) fun _ rest₄ =>
  pbind (match nth1 rest₄ with
    | (none, r) => (.err (.parseError "Missing collisional transition temperatures"), r)
    | (some l, r) =>
      match parseTempsLine l with
      | .error e => (.err e, r)
      | .ok ts => (.ok ts, r)) fun temps rest₅ =>
  pbind (match next1 rest₅ with
    | (none, r) => (.err (.parseError "Missing collisional transition data"), r)
    | (some _, r) => (.ok (), r)) fun _ rest₆ =>
  (.ok (name, count, temps), rest₆)

/-- Model of `LAMDAData::parse_colli_transitions`: the source's first pass
over the collisional section.  It consumes one line, then for each partner
consumes the per-partner header block, and returns an *empty* collection
(all data of this pass is discarded). -/
def parse_colli_transitions (lines : List String) : Nat → PRes Unit × List String
  | 0 => (.ok (), lines)
  | n + 1 =>
    pbind (colliPartnerHeader lines) fun _ rest =>
      parse_colli_transitions rest n

/-- Modelled from the spec: `from_reader` calls a per-record parser
`parse_colli_transition` that is missing from the source (the draft
`parse_colli_transition_set` is unfinished and does not parse any rates).
Per the spec, each collisional-transition record is one line
`id upper lower rate_1 ... rate_N_temp`, tokenized on whitespace, with the
rates zipped positionally with the partner's temperature sequence; a
missing or malformed field is a fatal parse failure.  Comment lines
starting with `!` are skipped as in the sibling record parsers. -/
def parse_colli_transition (temps : List ℚ) :
    List String → PRes ColliTransition × List String
  | [] => (.err (.parseError "Missing collisional transition record"), [])
  | l :: rest =>
    if startsBang l then parse_colli_transition temps rest
    else
      match splitWhitespace l with
      | t0 :: t1 :: t2 :: rateToks =>
        match parseNat t0, parseNat t1, parseNat t2 with
        | some id, some up, some low =>
          if rateToks.length < temps.length then
            (.err (.parseError "Missing collisional rate"), rest)
          else
            match parseFloats (rateToks.take temps.length) with
            | none => (.err (.parseError "invalid float literal"), rest)
            | some rs => (.ok ⟨id, up, low, temps.zip rs⟩, rest)
        | _, _, _ => (.err (.parseError "Malformed collisional transition record"), rest)
      | _ => (.err (.parseError "Malformed collisional transition record"), rest)

/-- Read exactly `count` collisional-transition records (the
`(0..count).map(..).collect::<Result<_, _>>()` of the source, with the
record parser modelled from the spec). -/
def parse_colli_records (temps : List ℚ) (lines : List String) :
    Nat → PRes (List ColliTransition) × List String
  | 0 => (.ok [], lines)
  | n + 1 =>
    pbind (parse_colli_transition temps lines) fun t rest =>
      pbind (parse_colli_records temps rest n) fun ts rest' =>
        (.ok (t :: ts), rest')

/-- The second collisional loop of `from_reader`: for each partner, read
the per-partner header block again, then the declared number of records,
and collect the named `CollSet`s in order. -/
def colliLoop (lines : List String) : Nat → PRes (List (String × CollSet)) × List String
  | 0 => (.ok [], lines)
  | n + 1 =>
    pbind (colliPartnerHeader lines) fun (name, count, temps) rest =>
      pbind (parse_colli_records temps rest count) fun ts rest' =>
        pbind (colliLoop rest' n) fun sets rest'' =>
          (.ok ((name, ⟨temps, ts⟩) :: sets), rest'')

/-- The staged body of `LAMDAData::from_reader`, the whole LAMDA parse
together with the final iterator state: the header
phase (molecule line, weight line, level count), the energy-level section,
the radiative-transition section, the collisional-partner count, the
discarding first pass over the collisional section, and the second
collisional loop that builds the partner map.  (The draft source binds the
final struct from misspelled local names; the evident bindings
`level_data`/`radset` are used.) -/
def from_readerAux (input : List String) : PRes LAMDAData × List String :=
  pbind (match nth1 input with
    | (none, r) => (.err (.parseError "Missing molecule header"), r)
    | (some _, r) => (.ok (), r)) fun _ rest =>
  pbind (match nth1 rest with
    | (none, r) => (.err (.parseError "Missing weight"), r)
    | (some _, r) => (.ok (), r)) fun _ rest₁ =>
  pbind (match nth1 rest₁ with
    | (none, r) => (.err (.parseError "Missing energy levels count"), r)
    | (some l, r) =>
      match parseNat l with
      | none => (.err .parseInt, r)
      | some n => (.ok n, r)) fun levelCount rest₂ =>
  pbind (match next1 rest₂ with
    | (none, r) => (.err (.parseError "Missing energy level header"), r)
    | (some _, r) => (.ok (), r)) fun _ rest₃ =>
  pbind (parse_energy_levels rest₃ levelCount) fun levelData rest₄ =>
  pbind (match nth1 rest₄ with
    | (none, r) => (.err (.parseError "Missing radiative transition count"), r)
    | (some l, r) =>
      match parseNat l with
      | none => (.err .parseInt, r)
      | some n => (.ok n, r)) fun radCount rest₅ =>
  pbind (match next1 rest₅ with
    | (none, r) => (.err (.parseError "Missing radiative transition header"), r)
    | (some _, r) => (.ok (), r)) fun _ rest₆ =>
  pbind (parse_rad_transitions rest₆ radCount) fun radData rest₇ =>
  pbind (match nth1 rest₇ with
    | (none, r) => (.err (.parseError "Missing collisional transition partner count"), r)
    | (some l, r) =>
      match parseNat l with
      | none => (.err .parseInt, r)
      | some n => (.ok n, r)) fun partnerCount rest₈ =>
  pbind (match next1 rest₈ with
    | (none, r) => (.err (.parseError "Missing collisional transition"), r)
    | (some _, r) => (.ok (), r)) fun _ rest₉ =>
  pbind (parse_colli_transitions rest₉ partnerCount) fun _ rest₁₀ =>
  pbind (colliLoop rest₁₀ partnerCount) fun collsets rest₁₁ =>
  (.ok ⟨levelData, radData, collsets⟩, rest₁₁)

/-- Model of `LAMDAData::from_reader`: the result value of the staged
parse. -/
def from_reader (input : List String) : PRes LAMDAData :=
  (from_readerAux input).1

/-! ## The line-skipping primitive (`src/io.rs`) -/

/-- Model of `BufRead::read_line` over an in-memory byte stream: append the
characters up to and including the first newline (everything remaining if
there is none) and return them with the rest of the stream.  At
end-of-input nothing is read. -/
def readLineChars : List Char → List Char × List Char
  | [] => ([], [])
  | c :: cs =>
    if c = '\n' then ([c], cs)
    else
      let (l, r) := readLineChars cs
      (c :: l, r)

/-- Model of `skip_line` from `src/io.rs`: clear the buffer, read one line
into it, and return `Ok(())`.  The in-memory reader never produces an I/O
error, so the only error source of the original (`read_line?`) never
fires; the returned pair is the buffer contents after the call and the
remaining stream. -/
def skip_line (buf : String) (stream : List Char) :
    Except Unit (String × List Char) :=
  let cleared : List Char := []
  let (l, r) := readLineChars stream
  .ok (String.mk (cleared ++ l), r)

/-! ## Beam model (`src/beam.rs`, constants from `src/constants.rs`)

Angles are real numbers holding the radian value (the base unit of the
`uom` angle quantity used by the source); `f64` arithmetic is modelled
over `ℝ`. -/

noncomputable section

/-- `FWHM_TO_AREA = 2π / (8 ln 2)` from `src/constants.rs`. -/
def FWHM_TO_AREA : ℝ := 2 * Real.pi / (8 * Real.log 2)

/-- `SIGMA_TO_FWHM = 2.35482004503` from `src/constants.rs` (the source
stores this truncated decimal, not the exact `sqrt(8 ln 2)`). -/
def SIGMA_TO_FWHM : ℝ := 2.35482004503

/-- `f64::EPSILON = 2 ^ (-52)`, exactly. -/
def EPSILON : ℝ := 1 / 4503599627370496

/-- Radian value of an angle given in arcseconds. -/
def arcsecToRad (v : ℝ) : ℝ := v * (Real.pi / 648000)

/-- Arcsecond value of an angle stored in radians
(`.get::<arcsecond>()`). -/
def radToArcsec (v : ℝ) : ℝ := v * (648000 / Real.pi)

/-- Degree value of an angle stored in radians (`.get::<degree>()`). -/
def radToDeg (v : ℝ) : ℝ := v * (180 / Real.pi)

/-- Radian value of an angle given in degrees
(`Angle::new::<degree>`). -/
def degToRad (v : ℝ) : ℝ := v * (Real.pi / 180)

/-- Model of the `Beam` struct: FWHM axes and position angle as radian
values, area as a steradian value. -/
structure Beam where
  major : ℝ
  minor : ℝ
  pa : ℝ
  area : ℝ

/-- Model of `BeamError` from the beam module. -/
inductive BeamError where
  | exclusiveParameterConflict
  | missingParameter
  | minorGreaterThanMajor
  deriving DecidableEq, Repr

/-- `Beam::to_area`: `major_rad * minor_rad * FWHM_TO_AREA`. -/
def to_area (major minor : ℝ) : ℝ := major * minor * FWHM_TO_AREA

/-- Model of `Beam::new`: the area branch (exclusive with the axis
parameters, deriving a circular beam through an arcsecond round trip as in
the source) and the axis branch (major required, minor defaulting to
major, position angle defaulting to zero, minor must not exceed major);
the area field is always recomputed from the axes. -/
def beamNew (major minor pa area : Option ℝ) : Except BeamError Beam :=
  match area with
  | some a =>
    if major.isSome || minor.isSome || pa.isSome then
      .error .exclusiveParameterConflict
    else
      let rad := Real.sqrt (a / (2 * Real.pi))
      let fwhmRadVal := rad * SIGMA_TO_FWHM
      let fwhmArcsecVal := radToArcsec fwhmRadVal
      let fw := arcsecToRad fwhmArcsecVal
      .ok ⟨fw, fw, 0, to_area fw fw⟩
  | none =>
    match major with
    | none => .error .missingParameter
    | some M =>
      let m := (minor.getD M)
      let p := (pa.getD 0)
      if m > M then .error .minorGreaterThanMajor
      else .ok ⟨M, m, p, to_area M m⟩

/-- `Beam::is_circular` with explicit relative tolerance (the source
defaults the `None` argument to `1e-6`): the fractional major/minor
difference, computed in degrees, is at most `rtol`. -/
def is_circular (b : Beam) (rtol : ℝ) : Prop :=
  (radToDeg b.major - radToDeg b.minor) / radToDeg b.major ≤ rtol

/-- Truncation toward zero, the rounding used by the `f64` `%`
operator. -/
def realTrunc (x : ℝ) : ℤ := if 0 ≤ x then ⌊x⌋ else ⌈x⌉

/-- The `f64` remainder operator `x % y`: `x - y * trunc(x / y)` (sign of
the dividend). -/
def rustRem (x y : ℝ) : ℝ := x - y * (realTrunc (x / y) : ℝ)

/-- Model of `PartialEq for Beam` (`eq`): position angles are reduced
modulo 180 degrees and compared absolutely, the axes are compared
absolutely in degrees, all against `1e-10` degrees; the position-angle
condition is short-circuited when `self` is circular. -/
def beamEq (a b : Beam) : Prop :=
  (|radToDeg a.major - radToDeg b.major| < 1e-10) ∧
  (|radToDeg a.minor - radToDeg b.minor| < 1e-10) ∧
  (is_circular a 1e-6 ∨
    |rustRem (radToDeg a.pa) 180 - rustRem (radToDeg b.pa) 180| < 1e-10)

/-- The `atan2` of `f64` over the reals (`y.atan2(x)`). -/
def atan2 (y x : ℝ) : ℝ :=
  if 0 < x then Real.arctan (y / x)
  else if x < 0 then
    (if 0 ≤ y then Real.arctan (y / x) + Real.pi
     else Real.arctan (y / x) - Real.pi)
  else if 0 < y then Real.pi / 2
  else if y < 0 then -(Real.pi / 2)
  else 0

/-! ### The free function `convolve` -/

/-- `alpha` of `convolve`: additive quadratic-form coefficient. -/
def cAlpha (b o : Beam) : ℝ :=
  (b.major * Real.cos b.pa) ^ 2 + (b.minor * Real.sin b.pa) ^ 2 +
  (o.major * Real.cos o.pa) ^ 2 + (o.minor * Real.sin o.pa) ^ 2

/-- `beta` of `convolve`. -/
def cBeta (b o : Beam) : ℝ :=
  (b.major * Real.sin b.pa) ^ 2 + (b.minor * Real.cos b.pa) ^ 2 +
  (o.major * Real.sin o.pa) ^ 2 + (o.minor * Real.cos o.pa) ^ 2

/-- `gamma` of `convolve`. -/
def cGamma (b o : Beam) : ℝ :=
  2 * ((b.minor ^ 2 - b.major ^ 2) * Real.sin b.pa * Real.cos b.pa +
       (o.minor ^ 2 - o.major ^ 2) * Real.sin o.pa * Real.cos o.pa)

/-- `s = alpha + beta` of `convolve`. -/
def cS (b o : Beam) : ℝ := cAlpha b o + cBeta b o

/-- `t = sqrt((alpha - beta)^2 + gamma^2)` of `convolve`. -/
def cT (b o : Beam) : ℝ :=
  Real.sqrt ((cAlpha b o - cBeta b o) ^ 2 + cGamma b o ^ 2)

/-- `pa_check = sqrt(|gamma| + |alpha - beta|)` of `convolve`. -/
def cPaCheck (b o : Beam) : ℝ :=
  Real.sqrt (|cGamma b o| + |cAlpha b o - cBeta b o|)

/-- The free function `convolve`: the composed `(major, minor, pa)`
triple, with the position angle zeroed when `pa_check` is within one
microarcsecond of zero. -/
def convolveTriple (b o : Beam) : ℝ × ℝ × ℝ :=
  (Real.sqrt (0.5 * (cS b o + cT b o)),
   Real.sqrt (0.5 * (cS b o - cT b o)),
   if |cPaCheck b o - 0| < arcsecToRad 1e-7 then 0
   else 0.5 * atan2 (-1 * cGamma b o) (cAlpha b o - cBeta b o))

/-- `Beam::convolve`: feed the composed triple back through
`Beam::new`. -/
def beamConvolve (b o : Beam) : Except BeamError Beam :=
  beamNew (some (convolveTriple b o).1) (some (convolveTriple b o).2.1)
    (some (convolveTriple b o).2.2) none

/-! ### The free function `deconvolve` -/

/-- `alpha` of `deconvolve`: subtractive quadratic-form coefficient. -/
def dAlpha (b1 b2 : Beam) : ℝ :=
  (b1.major * Real.cos b1.pa) ^ 2 + (b1.minor * Real.sin b1.pa) ^ 2 -
  (b2.major * Real.cos b2.pa) ^ 2 - (b2.minor * Real.sin b2.pa) ^ 2

/-- `beta` of `deconvolve`. -/
def dBeta (b1 b2 : Beam) : ℝ :=
  (b1.major * Real.sin b1.pa) ^ 2 + (b1.minor * Real.cos b1.pa) ^ 2 -
  (b2.major * Real.sin b2.pa) ^ 2 - (b2.minor * Real.cos b2.pa) ^ 2

/-- `gamma` of `deconvolve`. -/
def dGamma (b1 b2 : Beam) : ℝ :=
  2 * ((b1.minor ^ 2 - b1.major ^ 2) * Real.sin b1.pa * Real.cos b1.pa -
       (b2.minor ^ 2 - b2.major ^ 2) * Real.sin b2.pa * Real.cos b2.pa)

/-- `s = alpha + beta` of `deconvolve`. -/
def dS (b1 b2 : Beam) : ℝ := dAlpha b1 b2 + dBeta b1 b2

/-- `t = sqrt((alpha - beta)^2 + gamma^2)` of `deconvolve`. -/
def dT (b1 b2 : Beam) : ℝ :=
  Real.sqrt ((dAlpha b1 b2 - dBeta b1 b2) ^ 2 + dGamma b1 b2 ^ 2)

/-- The degeneracy guard of `deconvolve` as the source computes it:
`alpha + eps < 0`, or `beta + eps < 0`, or `s < t + eps / 3600^2`, with
`eps = f64::EPSILON`. -/
def deconvGuard (b1 b2 : Beam) : Prop :=
  dAlpha b1 b2 + EPSILON < 0 ∨ dBeta b1 b2 + EPSILON < 0 ∨
    dS b1 b2 < dT b1 b2 + EPSILON / 3600 ^ 2

instance deconvGuardDec (b1 b2 : Beam) : Decidable (deconvGuard b1 b2) := by
  unfold deconvGuard
  infer_instance

/-- `pa_check` of `deconvolve`. -/
def dPaCheck (b1 b2 : Beam) : ℝ :=
  Real.sqrt (|dGamma b1 b2| + |dAlpha b1 b2 - dBeta b1 b2|)

/-- The free function `deconvolve`: the zero triple under the degeneracy
guard, otherwise the subtractive composition with one `f64::EPSILON` added
to each axis. -/
def deconvolveTriple (b1 b2 : Beam) : ℝ × ℝ × ℝ :=
  if deconvGuard b1 b2 then (0, 0, 0)
  else
    (Real.sqrt (0.5 * (dS b1 b2 + dT b1 b2)) + EPSILON,
     Real.sqrt (0.5 * (dS b1 b2 - dT b1 b2)) + EPSILON,
     if |dPaCheck b1 b2 - 0| < arcsecToRad (1e-7 / 3600) then 0
     else 0.5 * atan2 (-1 * dGamma b1 b2) (dAlpha b1 b2 - dBeta b1 b2))

/-- `Beam::deconvolve`: feed the subtractive triple back through
`Beam::new`. -/
def beamDeconvolve (b1 b2 : Beam) : Except BeamError Beam :=
  beamNew (some (deconvolveTriple b1 b2).1) (some (deconvolveTriple b1 b2).2.1)
    (some (deconvolveTriple b1 b2).2.2) none


/-! ### Spec-side predicates and concrete beams used as evidence -/

/-- The degeneracy guard as the claim words it (`alpha >= 0` or
`beta >= 0` or `s < t`, each with the machine-epsilon-scaled tolerance,
the `s,t` one scaled by `3600^2`): this is the spec-side predicate to be
compared with the code's `deconvGuard`. -/
def deconvGuardSpec (b1 b2 : Beam) : Prop :=
  0 ≤ dAlpha b1 b2 + EPSILON ∨ 0 ≤ dBeta b1 b2 + EPSILON ∨
    dS b1 b2 < dT b1 b2 + EPSILON / 3600 ^ 2

/-- First beam of the C1 counterexample: circular, FWHM 2 radians. -/
def dcB1 : Beam := ⟨2, 2, 0, to_area 2 2⟩

/-- Second beam of the C1 counterexample: circular, FWHM 1 radian. -/
def dcB2 : Beam := ⟨1, 1, 0, to_area 1 1⟩

/-- The beam equality predicate as the claim words it, with the
position-angle condition ignored when *either* of the two beams is
circular: the spec-side predicate to be compared with the code's
`beamEq`. -/
def beamEqSpec (a b : Beam) : Prop :=
  (|radToDeg a.major - radToDeg b.major| < 1e-10) ∧
  (|radToDeg a.minor - radToDeg b.minor| < 1e-10) ∧
  (is_circular a 1e-6 ∨ is_circular b 1e-6 ∨
    |rustRem (radToDeg a.pa) 180 - rustRem (radToDeg b.pa) 180| < 1e-10)

/-- First beam of the C6 counterexample: one degree major, minor a hair
more than one part in a million smaller (just not circular), position
angle 1 radian. -/
def ceA : Beam :=
  ⟨degToRad 1, degToRad (1 - 1/1000000 - 1/20000000000), 1,
   to_area (degToRad 1) (degToRad (1 - 1/1000000 - 1/20000000000))⟩

/-- Second beam of the C6 counterexample: axes within the equality
tolerance of the first but just inside the circularity tolerance,
position angle 0. -/
def ceB : Beam :=
  ⟨degToRad 1, degToRad (1 - 1/1000000 + 1/25000000000), 0,
   to_area (degToRad 1) (degToRad (1 - 1/1000000 + 1/25000000000))⟩

/-- The major axis of a construction result (zero for a failed
construction); used to state the round-trip properties. -/
def majorOf : Except BeamError Beam → ℝ
  | .ok b => b.major
  | .error _ => 0

end

/-! ## Concrete LAMDA inputs used as evidence -/

/-- A LAMDA input truncated in the energy-level section: the declared
level count is 2 but only one level record follows. -/
def truncatedLevelInput : List String :=
  ["!MOLECULE", "CO", "!WEIGHT", "28.0", "!NUMBER OF ENERGY LEVELS", "2",
   "!LEVEL + ENERGIES + WEIGHT + J", "1 0.0 1.0 0"]

/-- A complete LAMDA input on which the draft parser succeeds (the draft
reads the per-partner header block twice, once in each collisional pass,
so the block appears twice). -/
def okInput : List String :=
  ["!MOLECULE", "CO", "!WEIGHT", "28.0", "!NUMBER OF ENERGY LEVELS", "2",
   "!LEVEL + ENERGIES + WEIGHT + J",
   "1 0.0 1.0 0", "2 3.845 3.0 1",
   "!NUMBER OF RADIATIVE TRANSITIONS", "1", "!TRANS + UP + LOW + A + FREQ + E",
   "1 2 1 6.2e-8 115.27 5.53",
   "!NUMBER OF COLL PARTNERS", "1",
   "!COLLISIONS BETWEEN",
   "!PARTNER", "1 CO-H2", "!NUMBER OF COLL TRANS", "2",
   "!NUMBER OF COLL TEMPS", "2", "!COLL TEMPS", "10.0 20.0", "!TRANSITIONS",
   "!PARTNER", "1 CO-H2", "!NUMBER OF COLL TRANS", "2",
   "!NUMBER OF COLL TEMPS", "2", "!COLL TEMPS", "10.0 20.0", "!TRANSITIONS",
   "1 2 1 1.0e-10 2.0e-10", "2 3 1 3.0e-10 4.0e-10"]

/-- The parse result of `okInput`. -/
def okData : LAMDAData :=
  ⟨⟨[1, 2], [0, mkRat 769 200], [1, 3], [0, 1]⟩,
   ⟨[1], [2], [1], [mkRat 31 500000000], [mkRat 11527 100], [mkRat 553 100]⟩,
   [("H2", ⟨[10, 20],
     [⟨1, 2, 1, [(10, mkRat 1 10000000000), (20, mkRat 1 5000000000)]⟩,
      ⟨2, 3, 1, [(10, mkRat 3 10000000000), (20, mkRat 1 2500000000)]⟩]⟩)]⟩

/-- A LAMDA input whose collisional section carries the non-enumerated
partner-id token `8`. -/
def badPartnerInput : List String :=
  ["!MOLECULE", "CO", "!WEIGHT", "28.0", "!NUMBER OF ENERGY LEVELS", "1",
   "!LEVEL + ENERGIES + WEIGHT + J", "1 0.0 1.0 0",
   "!NUMBER OF RADIATIVE TRANSITIONS", "0", "!TRANS",
   "!NUMBER OF COLL PARTNERS", "1",
   "!COLLISIONS BETWEEN",
   "!PARTNER", "8 UNKNOWN", "!NUMBER OF COLL TRANS", "2",
   "!NUMBER OF COLL TEMPS", "2", "!COLL TEMPS", "10.0 20.0", "!TRANSITIONS"]

/-! ## Supporting lemmas for the LAMDA parser -/

lemma pbind_eq_ok {α β : Type} {x : PRes α × List String}
    {f : α → List String → PRes β × List String} {b : β} {rest : List String}
    (h : pbind x f = (.ok b, rest)) :
    ∃ a ls, x = (.ok a, ls) ∧ f a ls = (.ok b, rest) := by
  rcases x with ⟨r, ls⟩
  cases r with
  | ok a => exact ⟨a, ls, rfl, h⟩
  | err e => simp [pbind] at h
  | panicked m => simp [pbind] at h

lemma parseFloats_length : ∀ {ts : List String} {qs : List ℚ},
    parseFloats ts = some qs → qs.length = ts.length := by
  intro ts
  induction ts with
  | nil =>
    intro qs h
    simp [parseFloats] at h
    simp [← h]
  | cons t ts ih =>
    intro qs h
    cases hf : parseFloat t with
    | none => simp [parseFloats, hf] at h
    | some q =>
      cases hg : parseFloats ts with
      | none => simp [parseFloats, hf, hg] at h
      | some qs' =>
        simp [parseFloats, hf, hg] at h
        simp [← h, ih hg]

lemma parse_colli_transition_len : ∀ {lines : List String} {temps : List ℚ}
    {t : ColliTransition} {rest : List String},
    parse_colli_transition temps lines = (.ok t, rest) →
    t.rates.length = temps.length := by
  intro lines
  induction lines with
  | nil =>
    intro temps t rest h
    simp [parse_colli_transition] at h
  | cons l ls ih =>
    intro temps t rest h
    rw [parse_colli_transition] at h
    by_cases hc : startsBang l
    · rw [if_pos hc] at h
      exact ih h
    · rw [if_neg hc] at h
      rcases hsw : splitWhitespace l with - | ⟨t0, - | ⟨t1, - | ⟨t2, rateToks⟩⟩⟩ <;>
          rw [hsw] at h
      · simp at h
      · simp at h
      · simp at h
      · cases h0 : parseNat t0 with
        | none => simp [h0] at h
        | some id =>
          cases h1 : parseNat t1 with
          | none => simp [h0, h1] at h
          | some up =>
            cases h2 : parseNat t2 with
            | none => simp [h0, h1, h2] at h
            | some low =>
              simp only [h0, h1, h2] at h
              by_cases hlen : rateToks.length < temps.length
              · rw [if_pos hlen] at h
                simp at h
              · rw [if_neg hlen] at h
                cases hpf : parseFloats (rateToks.take temps.length) with
                | none => simp [hpf] at h
                | some rs =>
                  rw [hpf] at h
                  simp at h
                  obtain ⟨h1', -⟩ := h
                  have hrs := parseFloats_length hpf
                  rw [List.length_take, min_eq_left (le_of_not_lt hlen)] at hrs
                  rw [← h1']
                  simp [List.length_zip, hrs]

lemma parse_colli_records_len : ∀ {n : Nat} {temps : List ℚ} {lines : List String}
    {ts : List ColliTransition} {rest : List String},
    parse_colli_records temps lines n = (.ok ts, rest) →
    ∀ t ∈ ts, t.rates.length = temps.length := by
  intro n
  induction n with
  | zero =>
    intro temps lines ts rest h
    simp [parse_colli_records] at h
    obtain ⟨rfl, rfl⟩ := h
    simp
  | succ n ih =>
    intro temps lines ts rest h
    rw [parse_colli_records] at h
    obtain ⟨a, ls, hx, h⟩ := pbind_eq_ok h
    obtain ⟨ts', ls', hy, h⟩ := pbind_eq_ok h
    simp at h
    obtain ⟨h1, -⟩ := h
    intro t ht
    rw [← h1] at ht
    rcases List.mem_cons.mp ht with rfl | hmem
    · exact parse_colli_transition_len hx
    · exact ih hy t hmem

lemma colliLoop_len : ∀ {k : Nat} {lines : List String}
    {sets : List (String × CollSet)} {rest : List String},
    colliLoop lines k = (.ok sets, rest) →
    ∀ pc ∈ sets, ∀ t ∈ pc.2.transitions, t.rates.length = pc.2.temps.length := by
  intro k
  induction k with
  | zero =>
    intro lines sets rest h
    simp [colliLoop] at h
    obtain ⟨rfl, rfl⟩ := h
    simp
  | succ k ih =>
    intro lines sets rest h
    rw [colliLoop] at h
    obtain ⟨a, ls, hx, h⟩ := pbind_eq_ok h
    obtain ⟨name, count, temps⟩ := a
    obtain ⟨ts, ls', hy, h⟩ := pbind_eq_ok h
    obtain ⟨sets', ls'', hz, h⟩ := pbind_eq_ok h
    simp at h
    obtain ⟨h1, -⟩ := h
    intro pc hpc
    rw [← h1] at hpc
    rcases List.mem_cons.mp hpc with rfl | hmem
    · intro t ht
      exact parse_colli_records_len hy t ht
    · exact ih hz pc hmem

lemma parse_energy_levels_len : ∀ {n : Nat} {lines : List String}
    {d : LevelData} {rest : List String},
    parse_energy_levels lines n = (.ok d, rest) →
    d.ids.length = n ∧ d.energies.length = n ∧
      d.weights.length = n ∧ d.qnums.length = n := by
  intro n
  induction n with
  | zero =>
    intro lines d rest h
    simp [parse_energy_levels] at h
    simp [← h.1]
  | succ n ih =>
    intro lines d rest h
    rw [parse_energy_levels] at h
    obtain ⟨a, ls, hx, h⟩ := pbind_eq_ok h
    obtain ⟨i, e, w, q⟩ := a
    obtain ⟨d', ls', hy, h⟩ := pbind_eq_ok h
    simp at h
    obtain ⟨h1, -⟩ := h
    obtain ⟨g1, g2, g3, g4⟩ := ih hy
    rw [← h1]
    simp [g1, g2, g3, g4]

lemma parse_rad_transitions_len : ∀ {n : Nat} {lines : List String}
    {d : RadSet} {rest : List String},
    parse_rad_transitions lines n = (.ok d, rest) →
    d.ids.length = n ∧ d.ups.length = n ∧ d.lows.length = n ∧
      d.einst_as.length = n ∧ d.freqs.length = n ∧ d.energies.length = n := by
  intro n
  induction n with
  | zero =>
    intro lines d rest h
    simp [parse_rad_transitions] at h
    simp [← h.1]
  | succ n ih =>
    intro lines d rest h
    rw [parse_rad_transitions] at h
    obtain ⟨a, ls, hx, h⟩ := pbind_eq_ok h
    obtain ⟨i, u, lo, ea, f, e⟩ := a
    obtain ⟨d', ls', hy, h⟩ := pbind_eq_ok h
    simp at h
    obtain ⟨h1, -⟩ := h
    obtain ⟨g1, g2, g3, g4, g5, g6⟩ := ih hy
    rw [← h1]
    simp [g1, g2, g3, g4, g5, g6]

lemma from_reader_collsets_len : ∀ {input : List String} {d : LAMDAData},
    from_reader input = .ok d →
    ∀ pc ∈ d.collsets, ∀ t ∈ pc.2.transitions,
      t.rates.length = pc.2.temps.length := by
  intro input d h
  rw [from_reader] at h
  rcases haux : from_readerAux input with ⟨r, rest⟩
  rw [haux] at h
  simp at h
  subst h
  rw [from_readerAux] at haux
  obtain ⟨-, ls₁, -, haux⟩ := pbind_eq_ok haux
  obtain ⟨-, ls₂, -, haux⟩ := pbind_eq_ok haux
  obtain ⟨levelCount, ls₃, -, haux⟩ := pbind_eq_ok haux
  obtain ⟨-, ls₄, -, haux⟩ := pbind_eq_ok haux
  obtain ⟨levelData, ls₅, -, haux⟩ := pbind_eq_ok haux
  obtain ⟨radCount, ls₆, -, haux⟩ := pbind_eq_ok haux
  obtain ⟨-, ls₇, -, haux⟩ := pbind_eq_ok haux
  obtain ⟨radData, ls₈, -, haux⟩ := pbind_eq_ok haux
  obtain ⟨partnerCount, ls₉, -, haux⟩ := pbind_eq_ok haux
  obtain ⟨-, ls₁₀, -, haux⟩ := pbind_eq_ok haux
  obtain ⟨-, ls₁₁, -, haux⟩ := pbind_eq_ok haux
  obtain ⟨collsets, ls₁₂, hcoll, haux⟩ := pbind_eq_ok haux
  simp at haux
  obtain ⟨h1, -⟩ := haux
  rw [← h1]
  exact colliLoop_len hcoll

/-! ## Supporting lemmas for the beam model -/

lemma to_area_zero : to_area 0 0 = 0 := by
  simp [to_area]

lemma cAlpha_comm (a b : Beam) : cAlpha a b = cAlpha b a := by
  unfold cAlpha; ring

lemma cBeta_comm (a b : Beam) : cBeta a b = cBeta b a := by
  unfold cBeta; ring

lemma cGamma_comm (a b : Beam) : cGamma a b = cGamma b a := by
  unfold cGamma; ring

lemma convolveTriple_comm (a b : Beam) : convolveTriple a b = convolveTriple b a := by
  unfold convolveTriple cPaCheck cT cS
  rw [cAlpha_comm, cBeta_comm, cGamma_comm]

lemma convolveTriple_minor_le_major (a b : Beam) :
    (convolveTriple a b).2.1 ≤ (convolveTriple a b).1 := by
  unfold convolveTriple
  have h0 : 0 ≤ cT a b := Real.sqrt_nonneg _
  exact Real.sqrt_le_sqrt (by linarith)

lemma dcAlpha_eq : dAlpha dcB1 dcB2 = 3 := by
  simp [dAlpha, dcB1, dcB2]
  norm_num

lemma dcBeta_eq : dBeta dcB1 dcB2 = 3 := by
  simp [dBeta, dcB1, dcB2]
  norm_num

lemma dcGamma_eq : dGamma dcB1 dcB2 = 0 := by
  simp [dGamma, dcB1, dcB2]

lemma dcT_eq : dT dcB1 dcB2 = 0 := by
  unfold dT
  rw [dcAlpha_eq, dcBeta_eq, dcGamma_eq]
  norm_num

lemma dcS_eq : dS dcB1 dcB2 = 6 := by
  unfold dS
  rw [dcAlpha_eq, dcBeta_eq]
  norm_num

lemma dc_not_guard : ¬ deconvGuard dcB1 dcB2 := by
  unfold deconvGuard
  rw [dcAlpha_eq, dcBeta_eq, dcS_eq, dcT_eq]
  push_neg
  norm_num [EPSILON]

lemma radToDeg_degToRad (d : ℝ) : radToDeg (degToRad d) = d := by
  rw [degToRad, radToDeg]
  field_simp

lemma ceA_pa_rem : rustRem (radToDeg ceA.pa) 180 = radToDeg 1 := by
  have hpa : ceA.pa = 1 := rfl
  rw [hpa, rustRem, realTrunc]
  have hπ : (3 : ℝ) < Real.pi := Real.pi_gt_three
  have h1 : radToDeg 1 / 180 = 1 / Real.pi := by
    rw [radToDeg]
    field_simp
    ring
  rw [h1, if_pos (by positivity)]
  have : ⌊(1 : ℝ) / Real.pi⌋ = 0 := by
    rw [Int.floor_eq_zero_iff]
    constructor
    · positivity
    · rw [div_lt_one (by linarith)]
      linarith
  rw [this]
  simp

lemma ceB_pa_rem : rustRem (radToDeg ceB.pa) 180 = 0 := by
  have hpa : ceB.pa = 0 := rfl
  rw [hpa, rustRem, realTrunc, radToDeg]
  norm_num

lemma arcsec_roundtrip (v : ℝ) : arcsecToRad (radToArcsec v) = v := by
  rw [radToArcsec, arcsecToRad]
  field_simp

lemma majorOf_axes (M : ℝ) : majorOf (beamNew (some M) (some M) (some 0) none) = M := by
  simp [beamNew, lt_irrefl, majorOf]

lemma majorOf_area (a : ℝ) :
    majorOf (beamNew none none none (some a)) =
      Real.sqrt (a / (2 * Real.pi)) * SIGMA_TO_FWHM := by
  simp [beamNew, majorOf, arcsec_roundtrip]

/-! ## Claim C2 -/

/-- C2: the claim says every LAMDA parsing failure is returned as a typed
`LAMDAError` value and the parse never panics, and in particular an input
that ends mid energy-level section yields a structural end-of-input error.
The code contradicts this: on an input whose level section is truncated
(declared count 2, one record present), `parse_energy_levels` hits the
`expect("Failed to parse level")` on the exhausted record iterator and the
whole parse panics instead of returning a `LAMDAError`.  This theorem
evaluates the parser at that failing input. -/
theorem from_reader_truncated_level_section_panics :
    from_reader truncatedLevelInput = .panicked "Failed to parse level" := by
  decide

/-! ## Claim C3 -/

/-- C3: on every successful parse the section lengths match the declared
counts: `parse_energy_levels` returns column lists whose length is exactly
the declared level count, `parse_rad_transitions` returns column lists
whose length is exactly the declared transition count, and every
collisional transition of every partner set in a successful `from_reader`
result stores exactly one rate per temperature of that partner. -/
theorem lamda_success_counts_invariant :
    (∀ (lines : List String) (n : Nat) (d : LevelData) (rest : List String),
      parse_energy_levels lines n = (.ok d, rest) →
      d.ids.length = n ∧ d.energies.length = n ∧
        d.weights.length = n ∧ d.qnums.length = n) ∧
    (∀ (lines : List String) (n : Nat) (d : RadSet) (rest : List String),
      parse_rad_transitions lines n = (.ok d, rest) →
      d.ids.length = n ∧ d.ups.length = n ∧ d.lows.length = n ∧
        d.einst_as.length = n ∧ d.freqs.length = n ∧ d.energies.length = n) ∧
    (∀ (input : List String) (d : LAMDAData),
      from_reader input = .ok d →
      ∀ pc ∈ d.collsets, ∀ t ∈ pc.2.transitions,
        t.rates.length = pc.2.temps.length) :=
  ⟨fun _ _ _ _ h => parse_energy_levels_len h,
   fun _ _ _ _ h => parse_rad_transitions_len h,
   fun _ _ h => from_reader_collsets_len h⟩

/-- Witness for C3: the invariant theorem applied at concrete successful
parses (a two-level section, a one-transition section, and the full
`okInput` parse with one collisional partner on two temperatures). -/
theorem lamda_success_counts_invariant_witness :
    (parse_energy_levels ["1 0.0 1.0 0", "2 3.845 3.0 1"] 2 =
        (.ok ⟨[1, 2], [0, mkRat 769 200], [1, 3], [0, 1]⟩, []) ∧
      ([1, 2] : List Nat).length = 2) ∧
    (parse_rad_transitions ["1 2 1 6.2e-8 115.27 5.53"] 1 =
        (.ok ⟨[1], [2], [1], [mkRat 31 500000000], [mkRat 11527 100], [mkRat 553 100]⟩, []) ∧
      ([1] : List Nat).length = 1) ∧
    (from_reader okInput = .ok okData ∧
      ∀ pc ∈ okData.collsets, ∀ t ∈ pc.2.transitions,
        t.rates.length = pc.2.temps.length) :=
  ⟨⟨by decide, (lamda_success_counts_invariant.1 ["1 0.0 1.0 0", "2 3.845 3.0 1"] 2
      ⟨[1, 2], [0, mkRat 769 200], [1, 3], [0, 1]⟩ [] (by decide)).1⟩,
   ⟨by decide, (lamda_success_counts_invariant.2.1 ["1 2 1 6.2e-8 115.27 5.53"] 1
      ⟨[1], [2], [1], [mkRat 31 500000000], [mkRat 11527 100], [mkRat 553 100]⟩ []
      (by decide)).1⟩,
   ⟨by decide, lamda_success_counts_invariant.2.2 okInput okData (by decide)⟩⟩

/-! ## Claim C4 -/

/-- C4: the first whitespace-separated token of a partner-id line maps to
a partner name exactly by the fixed table 1 to H2, 2 to p-H2, 3 to o-H2,
4 to e, 5 to H, 6 to He, 7 to H+, and every other token is the fatal
invalid-partner-id parse error; a full parse whose partner line carries
the token 8 fails with exactly that error. -/
theorem partner_id_table_total :
    (partnerNameOfId "1" = .ok "H2" ∧ partnerNameOfId "2" = .ok "p-H2" ∧
     partnerNameOfId "3" = .ok "o-H2" ∧ partnerNameOfId "4" = .ok "e" ∧
     partnerNameOfId "5" = .ok "H" ∧ partnerNameOfId "6" = .ok "He" ∧
     partnerNameOfId "7" = .ok "H+") ∧
    (∀ s : String, s ≠ "1" → s ≠ "2" → s ≠ "3" → s ≠ "4" → s ≠ "5" →
      s ≠ "6" → s ≠ "7" →
      partnerNameOfId s = .error (.parseError "Invalid partner transition ID")) ∧
    from_reader badPartnerInput = .err (.parseError "Invalid partner transition ID") := by
  refine ⟨⟨rfl, rfl, rfl, rfl, rfl, rfl, rfl⟩, ?_, by decide⟩
  intro s h1 h2 h3 h4 h5 h6 h7
  simp [partnerNameOfId, h1, h2, h3, h4, h5, h6, h7]

/-- Witness for C4: the table theorem applied at the concrete
non-enumerated token `8`. -/
theorem partner_id_table_total_witness :
    partnerNameOfId "8" = .error (.parseError "Invalid partner transition ID") :=
  partner_id_table_total.2.1 "8" (by decide) (by decide) (by decide) (by decide)
    (by decide) (by decide) (by decide)

/-! ## Claim C10 -/

/-- C10: `skip_line` returns `Ok` with an empty (cleared) buffer when the
underlying reader is already exhausted — end-of-input is never an error
from `skip_line` itself — while on a nonempty stream the buffer comes back
nonempty, so a caller needing a line must detect exhaustion from the
empty buffer. -/
theorem skip_line_eof_ok :
    (∀ buf : String, skip_line buf [] = .ok ("", [])) ∧
    (∀ (buf : String) (c : Char) (cs : List Char),
      ∃ s r, skip_line buf (c :: cs) = .ok (s, r) ∧ s ≠ "") := by
  constructor
  · intro buf
    rfl
  · intro buf c cs
    rcases hE : readLineChars cs with ⟨l, r⟩
    by_cases hnl : c = '\n'
    · subst hnl
      exact ⟨"\n", cs, rfl, by decide⟩
    · refine ⟨String.mk (c :: l), r, ?_, ?_⟩
      · simp [skip_line, readLineChars, hnl, hE]
      · intro hemp
        simpa using congrArg String.data hemp

/-! ## Beam model claim theorems -/

/-- C9: deconvolving a beam from an identical beam yields the zero beam
(major, minor, position angle and area all zero): the subtractive
coefficients cancel exactly, so `s = t = 0` and the `s < t + eps/3600^2`
branch of the degeneracy guard fires. -/
theorem deconvolve_self_is_zero_beam (b : Beam) :
    beamDeconvolve b b = .ok ⟨0, 0, 0, 0⟩ := by
  have ha : dAlpha b b = 0 := by unfold dAlpha; ring
  have hb : dBeta b b = 0 := by unfold dBeta; ring
  have hg : dGamma b b = 0 := by unfold dGamma; ring
  have ht : dT b b = 0 := by
    unfold dT
    rw [ha, hb, hg]
    norm_num
  have hs : dS b b = 0 := by unfold dS; rw [ha, hb]; ring
  have hguard : deconvGuard b b := by
    refine Or.inr (Or.inr ?_)
    rw [hs, ht]
    norm_num [EPSILON]
  have htriple : deconvolveTriple b b = (0, 0, 0) := by
    rw [deconvolveTriple, if_pos hguard]
  rw [beamDeconvolve, htriple]
  simp [beamNew, lt_irrefl, to_area_zero]

/-- C8: convolution is commutative under the beam equality test: both
orders construct the same beam, and that beam is equal to itself under
`eq`. -/
theorem convolve_commutative (a b : Beam) :
    ∃ c : Beam, beamConvolve a b = .ok c ∧ beamConvolve b a = .ok c ∧ beamEq c c := by
  have hle := convolveTriple_minor_le_major a b
  refine ⟨⟨(convolveTriple a b).1, (convolveTriple a b).2.1, (convolveTriple a b).2.2,
    to_area (convolveTriple a b).1 (convolveTriple a b).2.1⟩, ?_, ?_, ?_⟩
  · rw [beamConvolve]
    simp [beamNew, not_lt.mpr hle]
  · rw [beamConvolve, convolveTriple_comm b a]
    simp [beamNew, not_lt.mpr hle]
  · refine ⟨by norm_num, by norm_num, Or.inr (by norm_num)⟩

/-- C7: `Beam::new` fails with `MinorGreaterThanMajor` whenever both axes
are given (no area) with minor exceeding major; fails with
`ExclusiveParameterConflict` whenever area is given alongside any of
major, minor or position angle; fails with `MissingParameter` whenever
both major and area are absent; and on success minor defaults to major,
position angle defaults to zero, and the area field is always recomputed
as `major * minor * FWHM_TO_AREA`. -/
theorem beam_new_cases :
    (∀ (M m : ℝ) (p : Option ℝ), M < m →
      beamNew (some M) (some m) p none = .error .minorGreaterThanMajor) ∧
    (∀ (ma mi pa : Option ℝ) (ar : ℝ), (ma ≠ none ∨ mi ≠ none ∨ pa ≠ none) →
      beamNew ma mi pa (some ar) = .error .exclusiveParameterConflict) ∧
    (∀ mi pa : Option ℝ, beamNew none mi pa none = .error .missingParameter) ∧
    (∀ M : ℝ, beamNew (some M) none none none = .ok ⟨M, M, 0, to_area M M⟩) ∧
    (∀ M m : ℝ, m ≤ M →
      beamNew (some M) (some m) none none = .ok ⟨M, m, 0, to_area M m⟩) ∧
    (∀ (ma mi pa ar : Option ℝ) (b : Beam),
      beamNew ma mi pa ar = .ok b → b.area = b.major * b.minor * FWHM_TO_AREA) := by
  refine ⟨?_, ?_, ?_, ?_, ?_, ?_⟩
  · intro M m p h
    simp [beamNew, h]
  · intro ma mi pa ar h
    rcases h with h | h | h <;>
      · rw [beamNew]
        rw [if_pos]
        simp [Option.isSome_iff_ne_none, h]
  · intro mi pa
    simp [beamNew]
  · intro M
    simp [beamNew, lt_irrefl]
  · intro M m h
    simp [beamNew, not_lt.mpr h]
  · intro ma mi pa ar b h
    cases ar with
    | some a =>
      rw [beamNew] at h
      by_cases hc : (ma.isSome || mi.isSome || pa.isSome) = true
      · rw [if_pos hc] at h
        simp at h
      · rw [if_neg hc] at h
        simp at h
        rw [← h]
        simp [to_area]
    | none =>
      cases ma with
      | none => simp [beamNew] at h
      | some M =>
        rw [beamNew] at h
        by_cases hm : mi.getD M > M
        · rw [if_pos hm] at h
          simp at h
        · rw [if_neg hm] at h
          simp at h
          rw [← h]
          simp [to_area]

/-- Witness for C7: the construction cases at concrete inputs: axes
`(1, 2)` fail with `MinorGreaterThanMajor`, major together with an area
fails with `ExclusiveParameterConflict`, no parameters fail with
`MissingParameter`, and a sole major of `1` succeeds with minor and
position angle defaulted and the area recomputed. -/
theorem beam_new_cases_witness :
    beamNew (some 1) (some 2) none none = .error .minorGreaterThanMajor ∧
    beamNew (some 1) none none (some 1) = .error .exclusiveParameterConflict ∧
    beamNew none none none none = .error .missingParameter ∧
    beamNew (some 1) none none none = .ok ⟨1, 1, 0, to_area 1 1⟩ ∧
    beamNew (some 1) (some 1) none none = .ok ⟨1, 1, 0, to_area 1 1⟩ ∧
    (to_area 1 1 : ℝ) = (1 : ℝ) * 1 * FWHM_TO_AREA :=
  ⟨beam_new_cases.1 1 2 none one_lt_two,
   beam_new_cases.2.1 (some 1) none none 1 (Or.inl (Option.some_ne_none 1)),
   beam_new_cases.2.2.1 none none,
   beam_new_cases.2.2.2.1 1,
   beam_new_cases.2.2.2.2.1 1 1 le_rfl,
   beam_new_cases.2.2.2.2.2 (some 1) (some 1) none none ⟨1, 1, 0, to_area 1 1⟩
     (beam_new_cases.2.2.2.2.1 1 1 le_rfl)⟩

/-- Counterexample to C1: for the concrete beams with radian axes
`(2, 2, 0)` and `(1, 1, 0)` the claim's guard holds (`alpha = 3 >= 0`),
so the claim demands the zero beam, but `deconvolve` returns a beam with
strictly positive major axis. -/
theorem deconvolve_guard_spec_counterexample :
    deconvGuardSpec dcB1 dcB2 ∧ deconvolveTriple dcB1 dcB2 ≠ (0, 0, 0) := by
  constructor
  · exact Or.inl (by rw [dcAlpha_eq]; norm_num [EPSILON])
  · rw [deconvolveTriple, if_neg dc_not_guard]
    intro hEq
    have h1 := congrArg Prod.fst hEq
    simp only [dcS_eq, dcT_eq] at h1
    have h2 : (0 : ℝ) ≤ Real.sqrt (0.5 * (6 + 0)) := Real.sqrt_nonneg _
    rw [show (EPSILON : ℝ) = 1 / 4503599627370496 from rfl] at h1
    nlinarith [h2]

/-- C1 (amended): `deconvolve` returns the zero triple exactly when the
code's degeneracy guard holds — `alpha + eps < 0`, or `beta + eps < 0`,
or `s < t + eps/3600^2` (not `alpha >= 0` or `beta >= 0` as claimed) —
and in all other cases returns the subtractive composition
`newMajor = sqrt((s+t)/2) + eps`, `newMinor = sqrt((s-t)/2) + eps`. -/
theorem deconvolve_zero_iff_code_guard (b1 b2 : Beam) :
    (deconvolveTriple b1 b2 = (0, 0, 0) ↔ deconvGuard b1 b2) ∧
    (¬ deconvGuard b1 b2 →
      (deconvolveTriple b1 b2).1 = Real.sqrt ((dS b1 b2 + dT b1 b2) / 2) + EPSILON ∧
      (deconvolveTriple b1 b2).2.1 = Real.sqrt ((dS b1 b2 - dT b1 b2) / 2) + EPSILON) := by
  constructor
  · constructor
    · intro h
      by_contra hng
      rw [deconvolveTriple, if_neg hng] at h
      have h1 := congrArg Prod.fst h
      simp only at h1
      have h2 : (0 : ℝ) ≤ Real.sqrt (0.5 * (dS b1 b2 + dT b1 b2)) := Real.sqrt_nonneg _
      rw [show (EPSILON : ℝ) = 1 / 4503599627370496 from rfl] at h1
      nlinarith [h2]
    · intro hg
      rw [deconvolveTriple, if_pos hg]
  · intro hng
    rw [deconvolveTriple, if_neg hng]
    constructor
    · show Real.sqrt (0.5 * (dS b1 b2 + dT b1 b2)) + EPSILON = _
      rw [show (0.5 * (dS b1 b2 + dT b1 b2) : ℝ) = (dS b1 b2 + dT b1 b2) / 2 by ring]
    · show Real.sqrt (0.5 * (dS b1 b2 - dT b1 b2)) + EPSILON = _
      rw [show (0.5 * (dS b1 b2 - dT b1 b2) : ℝ) = (dS b1 b2 - dT b1 b2) / 2 by ring]

/-- Witness for C1: at the concrete beams of the counterexample the
code's guard fails and the theorem yields the non-degenerate axis
formulas. -/
theorem deconvolve_zero_iff_code_guard_witness :
    ¬ deconvGuard dcB1 dcB2 ∧
    (deconvolveTriple dcB1 dcB2).1 =
      Real.sqrt ((dS dcB1 dcB2 + dT dcB1 dcB2) / 2) + EPSILON :=
  ⟨dc_not_guard, ((deconvolve_zero_iff_code_guard dcB1 dcB2).2 dc_not_guard).1⟩

/-- Counterexample to C6: the beams `ceA` and `ceB` have axes equal
within tolerance, `ceB` is circular while `ceA` is not, and their
position angles differ by about 57 degrees; the claim's
either-beam-circular equality accepts the pair but the code's `eq`,
which only consults the first beam's circularity, rejects it. -/
theorem beam_eq_spec_counterexample : beamEqSpec ceA ceB ∧ ¬ beamEq ceA ceB := by
  have hMa : radToDeg ceA.major = 1 := radToDeg_degToRad 1
  have hMb : radToDeg ceB.major = 1 := radToDeg_degToRad 1
  have hma : radToDeg ceA.minor = 1 - 1/1000000 - 1/20000000000 := radToDeg_degToRad _
  have hmb : radToDeg ceB.minor = 1 - 1/1000000 + 1/25000000000 := radToDeg_degToRad _
  have hcircB : is_circular ceB 1e-6 := by
    rw [is_circular, hMb, hmb]
    norm_num
  have hncircA : ¬ is_circular ceA 1e-6 := by
    rw [is_circular, hMa, hma]
    norm_num
  have hpagap : ¬ |rustRem (radToDeg ceA.pa) 180 - rustRem (radToDeg ceB.pa) 180| < 1e-10 := by
    rw [ceA_pa_rem, ceB_pa_rem, sub_zero, radToDeg]
    have hπ1 : (0 : ℝ) < Real.pi := Real.pi_pos
    have hπ2 : Real.pi < 3.15 := Real.pi_lt_315
    rw [not_lt, abs_of_pos (by positivity)]
    rw [one_mul, le_div_iff hπ1]
    nlinarith
  constructor
  · refine ⟨?_, ?_, Or.inr (Or.inl hcircB)⟩
    · rw [hMa, hMb]
      norm_num
    · rw [hma, hmb]
      rw [abs_lt]
      constructor <;> norm_num
  · rintro ⟨-, -, h3 | h3⟩
    · exact hncircA h3
    · exact hpagap h3

/-- C6 (amended): the code's equality compares axes absolutely in degrees
against `1e-10`, reduces position angles modulo 180 degrees, and ignores
the position-angle condition exactly when the *first* beam (the receiver)
is circular; the claim's either-beam-circular predicate is precisely the
symmetrization of the code's asymmetric test. -/
theorem beam_eq_amended (a b : Beam) :
    (beamEq a b ↔
      (|radToDeg a.major - radToDeg b.major| < 1e-10 ∧
       |radToDeg a.minor - radToDeg b.minor| < 1e-10 ∧
       (is_circular a 1e-6 ∨
         |rustRem (radToDeg a.pa) 180 - rustRem (radToDeg b.pa) 180| < 1e-10))) ∧
    (beamEqSpec a b ↔ (beamEq a b ∨ beamEq b a)) := by
  constructor
  · exact Iff.rfl
  · unfold beamEqSpec beamEq
    constructor
    · rintro ⟨h1, h2, h3⟩
      rcases h3 with h | h | h
      · exact Or.inl ⟨h1, h2, Or.inl h⟩
      · exact Or.inr ⟨by rwa [abs_sub_comm], by rwa [abs_sub_comm], Or.inl h⟩
      · exact Or.inl ⟨h1, h2, Or.inr h⟩
    · rintro (⟨h1, h2, h3⟩ | ⟨h1, h2, h3⟩)
      · refine ⟨h1, h2, ?_⟩
        rcases h3 with h | h
        · exact Or.inl h
        · exact Or.inr (Or.inr h)
      · refine ⟨by rwa [abs_sub_comm], by rwa [abs_sub_comm], ?_⟩
        rcases h3 with h | h
        · exact Or.inr (Or.inl h)
        · exact Or.inr (Or.inr (by rwa [abs_sub_comm]))

/-- Counterexample to C5: with `M = 1` radian, the beam built from the
axes and the beam built from `area = M^2 * pi` (the claim's formula) have
major axes `1` and `sqrt(1/2) * 2.35482004503 = 1.665...`, differing by
far more than the claimed `1e-6` relative tolerance. -/
theorem beam_area_roundtrip_counterexample :
    1e-6 * majorOf (beamNew (some 1) (some 1) (some 0) none) <
      |majorOf (beamNew (some 1) (some 1) (some 0) none) -
        majorOf (beamNew none none none (some (1 ^ 2 * Real.pi)))| := by
  rw [majorOf_axes, majorOf_area]
  have hpi : (1 ^ 2 * Real.pi / (2 * Real.pi) : ℝ) = 1 / 2 := by
    field_simp
    ring
  rw [hpi]
  have hs : Real.sqrt (1 / 2) * SIGMA_TO_FWHM > 1.000001 := by
    have h1 : (0.707 : ℝ) < Real.sqrt (1 / 2) := by
      rw [show (1 / 2 : ℝ) = 1 / 2 from rfl]
      exact (Real.lt_sqrt (by norm_num)).mpr (by norm_num)
    have h2 : (0 : ℝ) < SIGMA_TO_FWHM := by norm_num [SIGMA_TO_FWHM]
    nlinarith [h1, h2, (show (2.35482004503 : ℝ) = SIGMA_TO_FWHM from rfl)]
  rw [abs_sub_comm, abs_of_pos (by linarith)]
  linarith

/-- C5 (amended): constructing a beam from `(major = M, minor = M,
pa = 0)` (radian axes) and from `area = M^2 * FWHM_TO_AREA` — the area the
beam model itself assigns to that circular beam, not `M^2 * pi` as claimed
— yields the same major axis within `1e-6` relative tolerance (the slack
absorbs the truncated `SIGMA_TO_FWHM` constant). -/
theorem beam_area_roundtrip_amended (M : ℝ) (hM : 0 < M) :
    |majorOf (beamNew (some M) (some M) (some 0) none) -
      majorOf (beamNew none none none (some (M ^ 2 * FWHM_TO_AREA)))| ≤
    1e-6 * majorOf (beamNew (some M) (some M) (some 0) none) := by
  rw [majorOf_axes, majorOf_area]
  have hlog : (0 : ℝ) < Real.log 2 := Real.log_pos (by norm_num)
  have harea : (M ^ 2 * FWHM_TO_AREA / (2 * Real.pi) : ℝ) =
      M ^ 2 / (8 * Real.log 2) := by
    rw [FWHM_TO_AREA]
    have hpi := Real.pi_ne_zero
    field_simp
    ring
  rw [harea, Real.sqrt_div (by positivity) _, Real.sqrt_sq hM.le]
  set s := Real.sqrt (8 * Real.log 2) with hsdef
  have hL1 : (0.6931471803 : ℝ) < Real.log 2 := Real.log_two_gt_d9
  have hL2 : Real.log 2 < 0.6931471808 := Real.log_two_lt_d9
  have hs1 : (2.354820044 : ℝ) < s :=
    (Real.lt_sqrt (by norm_num)).mpr (by nlinarith)
  have hs2 : s < 2.354820046 :=
    (Real.sqrt_lt' (by norm_num)).mpr (by nlinarith)
  have hspos : (0 : ℝ) < s := by linarith
  have hC : (SIGMA_TO_FWHM : ℝ) = 2.35482004503 := rfl
  have key : |1 - SIGMA_TO_FWHM / s| ≤ 1e-6 := by
    rw [abs_le]
    constructor
    · have : SIGMA_TO_FWHM / s ≤ 1 + 1e-6 := by
        rw [div_le_iff hspos, hC]
        nlinarith
      linarith
    · have : 1 - 1e-6 ≤ SIGMA_TO_FWHM / s := by
        rw [le_div_iff hspos, hC]
        nlinarith
      linarith
  have hrw : M - M / s * SIGMA_TO_FWHM = M * (1 - SIGMA_TO_FWHM / s) := by
    field_simp
    ring
  rw [hrw, abs_mul, abs_of_pos hM]
  calc M * |1 - SIGMA_TO_FWHM / s| ≤ M * 1e-6 := by
        exact mul_le_mul_of_nonneg_left key hM.le
    _ = 1e-6 * M := by ring

/-- Witness for C5: the amended round trip at the concrete axis `M = 1`
radian. -/
theorem beam_area_roundtrip_amended_witness :
    (0 : ℝ) < 1 ∧
    |majorOf (beamNew (some 1) (some 1) (some 0) none) -
      majorOf (beamNew none none none (some ((1 : ℝ) ^ 2 * FWHM_TO_AREA)))| ≤
    1e-6 * majorOf (beamNew (some 1) (some 1) (some 0) none) :=
  ⟨one_pos, beam_area_roundtrip_amended 1 one_pos⟩
